import Mathlib

/-!
Shallow embedding of `src/index.js` of the testcafe puppeteer-chromium
browser provider, and proofs about its documented behaviour.

Modelling conventions:
* JS objects holding launch options are modelled by records with the
  fields the provider reads explicitly, plus `extra`, an association
  list standing for every other property; a property that is absent
  (or, where the code treats them alike, `null`/`undefined`) is `none`.
* The per-session maps `browsers`, `pages`, `har`, `screenSizes` are
  modelled as functions from session id to `Option`.
* Delegated effects (puppeteer, browser-tools, fs) are recorded as an
  `Event` trace in issuing order; their results (the launched browser,
  the probed screen size, the serialized HAR log, the HTML template
  read from disk) come from an explicit environment.
* A thrown JS exception is an `err := some msg` result; the `state`
  field of a result records the per-session maps as mutated up to the
  throw point.
* `require` caches the loaded config module, so the module object read
  on one `openBrowser` call is the same object on the next call with
  the same path; the model therefore threads the (possibly mutated)
  module through each call via the `configModule` result field.
-/

namespace Provider

/-- Screen size probed in the page by the injected `getScreenSize`
script (index.js lines 9-11). -/
structure ScreenSize where
  width : Nat
  height : Nat
  deriving DecidableEq

/-- Viewport value usable for the `defaultViewport` launch option. -/
structure Viewport where
  width : Nat
  height : Nat
  deriving DecidableEq

/-- Handle to a launched browser process. -/
structure Browser where
  handle : Nat
  deriving DecidableEq

/-- Handle to an open page of a browser. -/
structure Page where
  handle : Nat
  deriving DecidableEq

/-- The first element of `browser.pages()`: a launched browser exposes
its initial page there (index.js lines 123-124). -/
def Browser.firstPage (b : Browser) : Page :=
  ⟨b.handle⟩

/-- Launch options object, as built by `openBrowser`: the five fields of
`defaultLaunchOptions` (index.js lines 59-65) plus `extra` for every
other property the user config may carry. -/
structure LaunchOptions where
  args : List String
  defaultViewport : Option Viewport
  headless : Bool
  ignoreDefaultArgs : List String
  timeout : Nat
  extra : List (String × String)
  deriving DecidableEq

/-- The `chromium` override object from the user config file: each
known field is optional (absent, or where the code treats them alike,
null, is `none`), and `extra` holds every other property. -/
structure LaunchConfig where
  args : Option (List String)
  defaultViewport : Option (Option Viewport)
  headless : Option Bool
  ignoreDefaultArgs : Option (List String)
  timeout : Option Nat
  extra : List (String × String)
  deriving DecidableEq

/-- Property lookup in the association list of extra object fields. -/
def getField (fields : List (String × String)) (k : String) : Option String :=
  (fields.find? (fun p => p.1 == k)).map (fun p => p.2)

/-- The built-in default launch options (index.js lines 59-65); a fresh
object is created on every `openBrowser` call. -/
def defaultLaunchOptions : LaunchOptions :=
  { args := ["--disable-infobars"]
    defaultViewport := none
    headless := false
    ignoreDefaultArgs := []
    timeout := 30000
    extra := [] }

/-- `combineLaunchOptions` (index.js lines 24-35): the object spread
takes every field present in the config over the default, then the
`args` field is fixed up: a null/undefined config `args` keeps the
default list, otherwise the two lists are concatenated (defaults
first) into a fresh array. -/
def combineLaunchOptions (d : LaunchOptions) (c : LaunchConfig) : LaunchOptions :=
  let merged : LaunchOptions :=
    { args := d.args
      defaultViewport := c.defaultViewport.getD d.defaultViewport
      headless := c.headless.getD d.headless
      ignoreDefaultArgs := c.ignoreDefaultArgs.getD d.ignoreDefaultArgs
      timeout := c.timeout.getD d.timeout
      extra := c.extra ++ d.extra }
  match c.args with
  | none => { merged with args := d.args }
  | some l => { merged with args := d.args ++ l }

/-- Claim C1: `combineLaunchOptions(defaults, override)` is the shallow
merge of the two records except for `args`: an absent override `args`
keeps the defaults' list, a present one is concatenated after the
defaults' list; every other field present in the override takes the
override's value and every field absent from the override keeps the
defaults' value. -/
theorem combineLaunchOptions_spec (d : LaunchOptions) (c : LaunchConfig) :
    (c.args = none → (combineLaunchOptions d c).args = d.args) ∧
    (∀ l, c.args = some l → (combineLaunchOptions d c).args = d.args ++ l) ∧
    (∀ v, c.defaultViewport = some v → (combineLaunchOptions d c).defaultViewport = v) ∧
    (c.defaultViewport = none → (combineLaunchOptions d c).defaultViewport = d.defaultViewport) ∧
    (∀ b, c.headless = some b → (combineLaunchOptions d c).headless = b) ∧
    (c.headless = none → (combineLaunchOptions d c).headless = d.headless) ∧
    (∀ l, c.ignoreDefaultArgs = some l → (combineLaunchOptions d c).ignoreDefaultArgs = l) ∧
    (c.ignoreDefaultArgs = none → (combineLaunchOptions d c).ignoreDefaultArgs = d.ignoreDefaultArgs) ∧
    (∀ t, c.timeout = some t → (combineLaunchOptions d c).timeout = t) ∧
    (c.timeout = none → (combineLaunchOptions d c).timeout = d.timeout) ∧
    (∀ k v, getField c.extra k = some v → getField (combineLaunchOptions d c).extra k = some v) ∧
    (∀ k, getField c.extra k = none → getField (combineLaunchOptions d c).extra k = getField d.extra k) := by
  have hextra : (combineLaunchOptions d c).extra = c.extra ++ d.extra := by
    unfold combineLaunchOptions
    cases c.args <;> rfl
  refine ⟨?_, ?_, ?_, ?_, ?_, ?_, ?_, ?_, ?_, ?_, ?_, ?_⟩
  · intro h; unfold combineLaunchOptions; rw [h]
  · intro l h; unfold combineLaunchOptions; rw [h]
  · intro v h; unfold combineLaunchOptions; cases c.args <;> simp [h]
  · intro h; unfold combineLaunchOptions; cases c.args <;> simp [h]
  · intro b h; unfold combineLaunchOptions; cases c.args <;> simp [h]
  · intro h; unfold combineLaunchOptions; cases c.args <;> simp [h]
  · intro l h; unfold combineLaunchOptions; cases c.args <;> simp [h]
  · intro h; unfold combineLaunchOptions; cases c.args <;> simp [h]
  · intro t h; unfold combineLaunchOptions; cases c.args <;> simp [h]
  · intro h; unfold combineLaunchOptions; cases c.args <;> simp [h]
  · intro k v h
    rw [hextra]
    unfold getField at h ⊢
    rw [List.find?_append]
    cases hf : c.extra.find? (fun p => p.1 == k) with
    | none => rw [hf] at h; simp at h
    | some p => rw [hf] at h; simp [Option.orElse, h, hf]
  · intro k h
    rw [hextra]
    unfold getField at h ⊢
    rw [List.find?_append]
    cases hf : c.extra.find? (fun p => p.1 == k) with
    | none => simp [Option.orElse]
    | some p => rw [hf] at h; simp at h

/-- Witness for C1, at the example of the spec: defaults with args
list `["a"]` and a field `x = 1`, override with args list `["b"]`
gives args `["a", "b"]` and keeps `x = 1`; an override carrying only
`x = 2` keeps args `["a"]` and takes `x = 2`. -/
theorem combineLaunchOptions_spec_witness :
    (combineLaunchOptions
        { defaultLaunchOptions with args := ["a"], extra := [("x", "1")] }
        { args := some ["b"], defaultViewport := none, headless := none,
          ignoreDefaultArgs := none, timeout := none, extra := [] }).args = ["a", "b"] ∧
    getField (combineLaunchOptions
        { defaultLaunchOptions with args := ["a"], extra := [("x", "1")] }
        { args := some ["b"], defaultViewport := none, headless := none,
          ignoreDefaultArgs := none, timeout := none, extra := [] }).extra "x" = some "1" ∧
    (combineLaunchOptions
        { defaultLaunchOptions with args := ["a"], extra := [("x", "1")] }
        { args := none, defaultViewport := none, headless := none,
          ignoreDefaultArgs := none, timeout := none, extra := [("x", "2")] }).args = ["a"] ∧
    getField (combineLaunchOptions
        { defaultLaunchOptions with args := ["a"], extra := [("x", "1")] }
        { args := none, defaultViewport := none, headless := none,
          ignoreDefaultArgs := none, timeout := none, extra := [("x", "2")] }).extra "x" = some "2" := by
  refine ⟨?_, ?_, ?_, ?_⟩
  · exact (combineLaunchOptions_spec _ _).2.1 ["b"] rfl
  · exact (combineLaunchOptions_spec _ _).2.2.2.2.2.2.2.2.2.2.2 "x" (by decide)
  · exact (combineLaunchOptions_spec _ _).1 rfl
  · exact (combineLaunchOptions_spec _ _).2.2.2.2.2.2.2.2.2.2.1 "x" "2" (by decide)

/-- The `har` object of the user config file: optional raw-JSON output
path and optional HTML report output path. A falsy (absent/empty)
path, which the code skips over, is `none`. -/
structure HarConfig where
  file : Option String
  html : Option String
  deriving DecidableEq

/-- The `config` export of the user config module: `chromium` (absent
makes the merge fail, see `openBrowser`), `appMode`,
`disableInfoBars` (absent or null is `none`) and `har` (falsy is
`none`). -/
structure BrowserConfiguration where
  chromium : Option LaunchConfig
  appMode : Option Bool
  disableInfoBars : Option Bool
  har : Option HarConfig
  deriving DecidableEq

/-- One entry of the provider's `har` map: the config's har object
together with the recorder attached to the session's page (the
`provider` property set at index.js line 129). -/
structure HarEntry where
  cfg : HarConfig
  page : Page
  deriving DecidableEq

/-- The provider's process-wide per-session maps (index.js lines
38-41). -/
structure ProviderState where
  browsers : String → Option Browser
  pages : String → Option Page
  har : String → Option HarEntry
  screenSizes : String → Option ScreenSize

/-- Point update of a session-keyed map (JS `m[id] = v` for
`v = some _`, `delete m[id]` for `v = none`). -/
def updMap {α : Type} (m : String → Option α) (k : String) (v : Option α) :
    String → Option α :=
  fun x => if x = k then v else m x

/-- The provider's initial state: all four maps empty. -/
def emptyState : ProviderState :=
  { browsers := fun _ => none
    pages := fun _ => none
    har := fun _ => none
    screenSizes := fun _ => none }

/-- One delegated effect, recorded in issuing order. -/
inductive Event where
  | launch (opts : LaunchOptions)
  | getPages (b : Browser)
  | harStart (p : Page)
  | goto (p : Page) (url : String)
  | waitReady (id : String)
  | maximize (id : String)
  | runInitScript (id : String)
  | harStop (p : Page)
  | writeFile (path content : String)
  | pageClose (p : Page)
  | browserClose (b : Browser)
  | ensureDir (screenshotPath : String)
  | screenshot (p : Page) (path : String) (fullPage : Bool)
  | setViewport (p : Page) (w h : Nat)
  | hover (p : Page) (selector : String)
  deriving DecidableEq

/-- Environment supplying the results of the delegated calls an
`openBrowser` makes: what `puppeteer.launch` returns (or throws), and
the screen size the injected probe reports. -/
structure Env where
  launchResult : Except String Browser
  probedSize : ScreenSize

/-- Result of an `openBrowser` call: the delegated-effect trace, the
per-session maps as left by the call (also when it throws), the
cached config module after the call (object spread copies array
references, so pushes can mutate the module), and the thrown error if
any. -/
structure OpenResult where
  events : List Event
  state : ProviderState
  configModule : Option (Except String BrowserConfiguration)
  err : Option String

/-- Result of any other provider call: effect trace, resulting maps,
thrown error if any. -/
structure ActionResult where
  events : List Event
  state : ProviderState
  err : Option String

/-- Message of `new Error(...)` at index.js line 115, wrapping the
underlying config read error. -/
def wrapConfigError (e : String) : String :=
  "Error reading the launch options from the config file!" ++ e

/-- The TypeError raised inside `combineLaunchOptions` when the config
module has no `chromium` object (reading `args` of undefined); it is
raised inside the try block and hence wrapped. -/
def chromiumMissingError : String :=
  "TypeError: Cannot read properties of undefined (reading args)"

/-- The TypeError raised by `this.pages[id].close()` when the page map
has no entry for the session. -/
def pageCloseTypeError : String :=
  "TypeError: Cannot read properties of undefined (reading close)"

/-- The TypeError raised by `this.browsers[id].close()` when the
browser map has no entry for the session. -/
def browserCloseTypeError : String :=
  "TypeError: Cannot read properties of undefined (reading close on browsers)"

/-- The TypeError raised by `this.pages[id].setViewport(...)` when the
page map has no entry for the session. -/
def setViewportTypeError : String :=
  "TypeError: Cannot read properties of undefined (reading setViewport)"

/-- The TypeError raised by destructuring
`this.screenSizes[id]` when the screen-size map has no entry. -/
def screenSizeDestructureError : String :=
  "TypeError: Cannot destructure width of undefined"

/-- The TypeError raised by `this.pages[id].screenshot(...)` when the
page map has no entry for the session. -/
def screenshotTypeError : String :=
  "TypeError: Cannot read properties of undefined (reading screenshot)"

/-- The TypeError raised by `this.pages[id].hover(...)` when the page
map has no entry for the session. -/
def hoverTypeError : String :=
  "TypeError: Cannot read properties of undefined (reading hover)"

/-- Application of the `appMode` option (index.js lines 97-100): push
`--app=` plus the url onto the args array and force `headless` to
false. -/
def appModeOpts (lo : LaunchOptions) (pageUrl : String) (appMode : Bool) : LaunchOptions :=
  if appMode then
    { lo with args := lo.args ++ ["--app=" ++ pageUrl], headless := false }
  else lo

/-- Application of the `disableInfoBars` option (index.js lines
105-108): push `--no-default-browser-check` onto the args array and
`--enable-automation` onto the ignoreDefaultArgs array. -/
def disableInfoBarsOpts (lo : LaunchOptions) (dib : Bool) : LaunchOptions :=
  if dib then
    { lo with args := lo.args ++ ["--no-default-browser-check"],
              ignoreDefaultArgs := lo.ignoreDefaultArgs ++ ["--enable-automation"] }
  else lo

/-- The cached config module after the option pushes: the object
spread copies the reference of the module's `ignoreDefaultArgs` array
into the launch options, so when the module supplies that array and
`disableInfoBars` is set, the push at index.js line 107 also mutates
the module; `args` is never aliased because `combineLaunchOptions`
always builds a fresh array. -/
def configModuleAfter (bc : BrowserConfiguration) (c : LaunchConfig)
    (lo : LaunchOptions) : BrowserConfiguration :=
  if bc.disableInfoBars.getD false && c.ignoreDefaultArgs.isSome then
    { bc with chromium := some { c with ignoreDefaultArgs := some lo.ignoreDefaultArgs } }
  else bc

/-- The tail of `openBrowser` on the fresh-launch path (index.js lines
119-152): launch, fetch the first page, optionally attach and start a
HAR recorder, navigate unless in app mode, wait for the connection,
maximize unless headless, probe the screen size, and store the
handles. -/
def openLaunchedBrowser (env : Env) (id pageUrl : String) (lo : LaunchOptions)
    (appMode : Bool) (harCfg : Option HarConfig) (st : ProviderState)
    (cfgAfter : Option (Except String BrowserConfiguration)) : OpenResult :=
  match env.launchResult with
  | .error e => { events := [.launch lo], state := st, configModule := cfgAfter, err := some e }
  | .ok browser =>
      let page := browser.firstPage
      let harEvents : List Event :=
        match harCfg with
        | some _ => [.harStart page]
        | none => []
      let st1 : ProviderState :=
        match harCfg with
        | some hc => { st with har := updMap st.har id (some ⟨hc, page⟩) }
        | none => st
      { events := [.launch lo, .getPages browser] ++ harEvents
          ++ (if appMode then [] else [.goto page pageUrl])
          ++ [.waitReady id]
          ++ (if lo.headless then [] else [.maximize id])
          ++ [.runInitScript id]
        state := { st1 with
          screenSizes := updMap st1.screenSizes id (some env.probedSize)
          browsers := updMap st1.browsers id (some browser)
          pages := updMap st1.pages id (some page) }
        configModule := cfgAfter
        err := none }

/-- `openBrowser` (index.js lines 57-153). The `config` argument is
`none` for a falsy config path; otherwise it carries the outcome of
`require(configPath).config`: `.error` when resolving/parsing the
module throws, `.ok` with the (cached, shared) module object
otherwise. If a browser is already tracked for `id`, the whole config
block is skipped, `launchOptions` stays the empty object (its
`headless` is undefined, hence falsy) and the existing browser is
reused. -/
def openBrowser (env : Env) (id pageUrl : String)
    (config : Option (Except String BrowserConfiguration))
    (st : ProviderState) : OpenResult :=
  match st.browsers id with
  | some browser =>
      let page := browser.firstPage
      { events := [.getPages browser, .goto page pageUrl, .waitReady id,
                   .maximize id, .runInitScript id]
        state := { st with
          screenSizes := updMap st.screenSizes id (some env.probedSize)
          browsers := updMap st.browsers id (some browser)
          pages := updMap st.pages id (some page) }
        configModule := config
        err := none }
  | none =>
      match config with
      | none =>
          openLaunchedBrowser env id pageUrl defaultLaunchOptions false none st none
      | some (.error e) =>
          { events := [], state := st, configModule := some (.error e),
            err := some (wrapConfigError e) }
      | some (.ok bc) =>
          match bc.chromium with
          | none =>
              { events := [], state := st, configModule := some (.ok bc),
                err := some (wrapConfigError chromiumMissingError) }
          | some c =>
              let lo := disableInfoBarsOpts
                (appModeOpts (combineLaunchOptions defaultLaunchOptions c)
                  pageUrl (bc.appMode.getD false))
                (bc.disableInfoBars.getD false)
              openLaunchedBrowser env id pageUrl lo (bc.appMode.getD false)
                bc.har st (some (.ok (configModuleAfter bc c lo)))

/-- First-occurrence string replacement, the semantics of the JS
`String.prototype.replace` call with a string pattern used at
index.js line 221. -/
def replaceFirstAux (pat repl : List Char) : List Char → List Char
  | [] => []
  | ch :: rest =>
      if (ch :: rest).take pat.length = pat then
        repl ++ (ch :: rest).drop pat.length
      else
        ch :: replaceFirstAux pat repl rest

/-- String version of `replaceFirstAux`. -/
def replaceFirst (s pat repl : String) : String :=
  ⟨replaceFirstAux pat.data repl.data s.data⟩

/-- `closeBrowser` (index.js lines 155-172). `harJson` models
`JSON.stringify` of the log returned by `provider.stop()`;
`htmlTemplate` models the contents of the static `har.html` file read
at line 220. Note the screen-size entry is never deleted. -/
def closeBrowser (harJson htmlTemplate : String) (id : String)
    (st : ProviderState) : ActionResult :=
  let harEvents : List Event :=
    match st.har id with
    | some entry =>
        [.harStop entry.page]
          ++ (match entry.cfg.file with
              | some f => [.writeFile f harJson]
              | none => [])
          ++ (match entry.cfg.html with
              | some h => [.writeFile h (replaceFirst htmlTemplate "{harLogData}" harJson)]
              | none => [])
    | none => []
  let st1 : ProviderState :=
    match st.har id with
    | some _ => { st with har := updMap st.har id none }
    | none => st
  match st1.pages id with
  | none => { events := harEvents, state := st1, err := some pageCloseTypeError }
  | some p =>
      let st2 : ProviderState := { st1 with pages := updMap st1.pages id none }
      match st2.browsers id with
      | none =>
          { events := harEvents ++ [.pageClose p], state := st2,
            err := some browserCloseTypeError }
      | some b =>
          { events := harEvents ++ [.pageClose p, .browserClose b],
            state := { st2 with browsers := updMap st2.browsers id none },
            err := none }

/-- `maximizeWindow` (index.js lines 183-185): delegate to
`browserTools.maximize`. -/
def maximizeWindow (id : String) (st : ProviderState) : ActionResult :=
  { events := [.maximize id], state := st, err := none }

/-- `canResizeWindowToDimensions` (index.js lines 187-191): destructure
the recorded screen size and compare componentwise. -/
def canResizeWindowToDimensions (id : String) (width height : Nat)
    (st : ProviderState) : Except String Bool :=
  match st.screenSizes id with
  | none => .error screenSizeDestructureError
  | some s => .ok (decide (width ≤ s.width) && decide (height ≤ s.height))

/-- `resizeWindow` (index.js lines 193-195): delegate to
`page.setViewport`. -/
def resizeWindow (id : String) (width height : Nat)
    (st : ProviderState) : ActionResult :=
  match st.pages id with
  | none => { events := [], state := st, err := some setViewportTypeError }
  | some p => { events := [.setViewport p width height], state := st, err := none }

/-- `takeScreenshot` (index.js lines 197-206): create the destination
directory first (so that happens even for a missing session), then
delegate to `page.screenshot`; the width/height arguments are
ignored by the code. -/
def takeScreenshot (id screenshotPath : String) (_pageWidth _pageHeight : Nat)
    (fullPage : Bool) (st : ProviderState) : ActionResult :=
  match st.pages id with
  | none =>
      { events := [.ensureDir screenshotPath], state := st,
        err := some screenshotTypeError }
  | some p =>
      { events := [.ensureDir screenshotPath, .screenshot p screenshotPath fullPage],
        state := st, err := none }

/-- `hoverElement` (index.js lines 208-213): `resolvedId` models the
session id obtained from the test-run tracker; then delegate to
`page.hover`. -/
def hoverElement (resolvedId selector : String) (st : ProviderState) : ActionResult :=
  match st.pages resolvedId with
  | none => { events := [], state := st, err := some hoverTypeError }
  | some p => { events := [.hover p selector], state := st, err := none }

/-- The launch-option records of the `puppeteer.launch` calls in a
trace, in order. -/
def launchedOpts (evs : List Event) : List LaunchOptions :=
  evs.filterMap fun e =>
    match e with
    | .launch lo => some lo
    | _ => none

/-- The file writes in a trace, in order. -/
def writeEvents (evs : List Event) : List Event :=
  evs.filter fun e =>
    match e with
    | .writeFile _ _ => true
    | _ => false

/-- Point lookup of an updated map at the updated key. -/
theorem updMap_self {α : Type} (m : String → Option α) (k : String) (v : Option α) :
    updMap m k v k = v := by
  simp [updMap]

/-- Claim C4: with a recorded screen size for the session,
`canResizeWindowToDimensions` returns true exactly when the requested
width and height are each at most the recorded screen width and
height. -/
theorem canResize_iff (st : ProviderState) (id : String) (w h sw sh : Nat)
    (hs : st.screenSizes id = some ⟨sw, sh⟩) :
    canResizeWindowToDimensions id w h st = .ok true ↔ (w ≤ sw ∧ h ≤ sh) := by
  unfold canResizeWindowToDimensions
  rw [hs]
  simp

/-- Witness for C4 at a concrete session state with screen size
100 by 50. -/
theorem canResize_iff_witness :
    canResizeWindowToDimensions "w" 80 50
        { emptyState with screenSizes := updMap emptyState.screenSizes "w" (some ⟨100, 50⟩) } =
      .ok true ↔ (80 ≤ 100 ∧ 50 ≤ 50) :=
  canResize_iff _ "w" 80 50 100 50 (by decide)

/-- Claim C8: when `closeBrowser(id)` completes (page and browser
handles were present), the browser-handle, page-handle and HAR maps
no longer hold an entry for `id`. -/
theorem closeBrowser_clears_lookups (hj tpl id : String) (st : ProviderState)
    (p : Page) (b : Browser)
    (hp : st.pages id = some p) (hb : st.browsers id = some b) :
    (closeBrowser hj tpl id st).err = none ∧
    (closeBrowser hj tpl id st).state.browsers id = none ∧
    (closeBrowser hj tpl id st).state.pages id = none ∧
    (closeBrowser hj tpl id st).state.har id = none := by
  unfold closeBrowser
  cases hh : st.har id <;> simp [hh, hp, hb, updMap]

/-- Witness for C8 at a concrete one-session state. -/
theorem closeBrowser_clears_lookups_witness :
    (closeBrowser "log" "tpl" "s"
        { browsers := updMap (fun _ => none) "s" (some ⟨1⟩),
          pages := updMap (fun _ => none) "s" (some ⟨1⟩),
          har := fun _ => none,
          screenSizes := fun _ => none }).err = none ∧
    (closeBrowser "log" "tpl" "s"
        { browsers := updMap (fun _ => none) "s" (some ⟨1⟩),
          pages := updMap (fun _ => none) "s" (some ⟨1⟩),
          har := fun _ => none,
          screenSizes := fun _ => none }).state.browsers "s" = none ∧
    (closeBrowser "log" "tpl" "s"
        { browsers := updMap (fun _ => none) "s" (some ⟨1⟩),
          pages := updMap (fun _ => none) "s" (some ⟨1⟩),
          har := fun _ => none,
          screenSizes := fun _ => none }).state.pages "s" = none ∧
    (closeBrowser "log" "tpl" "s"
        { browsers := updMap (fun _ => none) "s" (some ⟨1⟩),
          pages := updMap (fun _ => none) "s" (some ⟨1⟩),
          har := fun _ => none,
          screenSizes := fun _ => none }).state.har "s" = none :=
  closeBrowser_clears_lookups "log" "tpl" "s" _ ⟨1⟩ ⟨1⟩ (by decide) (by decide)

/-- Concrete state for the C3 counterexample: one fully-populated
session named `session`. -/
def stC3 : ProviderState :=
  { browsers := updMap (fun _ => none) "session" (some ⟨0⟩),
    pages := updMap (fun _ => none) "session" (some ⟨0⟩),
    har := updMap (fun _ => none) "session" (some ⟨⟨some "out.har", none⟩, ⟨0⟩⟩),
    screenSizes := updMap (fun _ => none) "session" (some ⟨1920, 1080⟩) }

/-- Counterexample to claim C3 as stated: after a completed
`closeBrowser("session")` on a fully-populated session, the
screen-size map still holds the entry for `session`, so not all
per-session maps are cleared. -/
theorem closeBrowser_keeps_screenSize_counterexample :
    (closeBrowser "harlog" "template" "session" stC3).err = none ∧
    (closeBrowser "harlog" "template" "session" stC3).state.screenSizes "session" =
      some ⟨1920, 1080⟩ ∧
    (closeBrowser "harlog" "template" "session" stC3).state.screenSizes "session" ≠ none := by
  decide

/-- Claim C3 (amended): a completed `closeBrowser(id)` removes the
browser-handle, page-handle and HAR entries for `id` but leaves the
screen-size entry unchanged. -/
theorem closeBrowser_removes_handles_keeps_screenSize (hj tpl id : String)
    (st : ProviderState) (p : Page) (b : Browser)
    (hp : st.pages id = some p) (hb : st.browsers id = some b) :
    (closeBrowser hj tpl id st).err = none ∧
    (closeBrowser hj tpl id st).state.browsers id = none ∧
    (closeBrowser hj tpl id st).state.pages id = none ∧
    (closeBrowser hj tpl id st).state.har id = none ∧
    (closeBrowser hj tpl id st).state.screenSizes id = st.screenSizes id := by
  unfold closeBrowser
  cases hh : st.har id <;> simp [hh, hp, hb, updMap]

/-- Witness for the amended C3 at the concrete state `stC3`. -/
theorem closeBrowser_removes_handles_keeps_screenSize_witness :
    (closeBrowser "harlog" "template" "session" stC3).err = none ∧
    (closeBrowser "harlog" "template" "session" stC3).state.browsers "session" = none ∧
    (closeBrowser "harlog" "template" "session" stC3).state.pages "session" = none ∧
    (closeBrowser "harlog" "template" "session" stC3).state.har "session" = none ∧
    (closeBrowser "harlog" "template" "session" stC3).state.screenSizes "session" =
      stC3.screenSizes "session" :=
  closeBrowser_removes_handles_keeps_screenSize "harlog" "template" "session"
    stC3 ⟨0⟩ ⟨0⟩ (by decide) (by decide)

/-- Claim C9: every per-session operation called with a session id for
which no state is recorded fails with the TypeError of dereferencing
the missing handle; none of them is a no-op with a defined result. -/
theorem missing_session_ops_fail (hj tpl id sel spath : String)
    (w h pw ph : Nat) (fp : Bool) (st : ProviderState)
    (hb : st.browsers id = none) (hp : st.pages id = none)
    (hh : st.har id = none) (hs : st.screenSizes id = none) :
    (closeBrowser hj tpl id st).err = some pageCloseTypeError ∧
    (resizeWindow id w h st).err = some setViewportTypeError ∧
    canResizeWindowToDimensions id w h st = .error screenSizeDestructureError ∧
    (takeScreenshot id spath pw ph fp st).err = some screenshotTypeError ∧
    (hoverElement id sel st).err = some hoverTypeError := by
  unfold closeBrowser resizeWindow canResizeWindowToDimensions takeScreenshot hoverElement
  simp [hb, hp, hh, hs]

/-- Witness for C9 at the empty provider state. -/
theorem missing_session_ops_fail_witness :
    (closeBrowser "log" "tpl" "nobody" emptyState).err = some pageCloseTypeError ∧
    (resizeWindow "nobody" 10 10 emptyState).err = some setViewportTypeError ∧
    canResizeWindowToDimensions "nobody" 10 10 emptyState = .error screenSizeDestructureError ∧
    (takeScreenshot "nobody" "shot.png" 10 10 true emptyState).err = some screenshotTypeError ∧
    (hoverElement "nobody" "a.link" emptyState).err = some hoverTypeError :=
  missing_session_ops_fail "log" "tpl" "nobody" "a.link" "shot.png" 10 10 10 10 true
    emptyState rfl rfl rfl rfl

/-- Claim C10: when a browser is already tracked for `id`,
`openBrowser` launches nothing and never reads the config (so even an
unreadable config raises no error); it fetches the existing browser's
first page, navigates to the url, maximizes unconditionally, and
overwrites the browser, page and screen-size entries for `id`. -/
theorem openBrowser_tracked_browser (env : Env) (id url : String)
    (config : Option (Except String BrowserConfiguration))
    (st : ProviderState) (b : Browser)
    (hb : st.browsers id = some b) :
    (openBrowser env id url config st).events =
      [.getPages b, .goto b.firstPage url, .waitReady id, .maximize id, .runInitScript id] ∧
    (openBrowser env id url config st).err = none ∧
    (openBrowser env id url config st).configModule = config ∧
    (openBrowser env id url config st).state.browsers id = some b ∧
    (openBrowser env id url config st).state.pages id = some b.firstPage ∧
    (openBrowser env id url config st).state.screenSizes id = some env.probedSize := by
  unfold openBrowser
  simp [hb, updMap]

/-- Witness for C10: re-opening a tracked session with an unreadable
config still succeeds and navigates. -/
theorem openBrowser_tracked_browser_witness :
    (openBrowser ⟨.ok ⟨9⟩, ⟨800, 600⟩⟩ "s" "http://u" (some (.error "ENOENT"))
        { emptyState with browsers := updMap emptyState.browsers "s" (some ⟨3⟩) }).events =
      [.getPages ⟨3⟩, .goto (Browser.firstPage ⟨3⟩) "http://u", .waitReady "s",
       .maximize "s", .runInitScript "s"] ∧
    (openBrowser ⟨.ok ⟨9⟩, ⟨800, 600⟩⟩ "s" "http://u" (some (.error "ENOENT"))
        { emptyState with browsers := updMap emptyState.browsers "s" (some ⟨3⟩) }).err = none ∧
    (openBrowser ⟨.ok ⟨9⟩, ⟨800, 600⟩⟩ "s" "http://u" (some (.error "ENOENT"))
        { emptyState with browsers := updMap emptyState.browsers "s" (some ⟨3⟩) }).configModule =
      some (.error "ENOENT") ∧
    (openBrowser ⟨.ok ⟨9⟩, ⟨800, 600⟩⟩ "s" "http://u" (some (.error "ENOENT"))
        { emptyState with browsers := updMap emptyState.browsers "s" (some ⟨3⟩) }).state.browsers "s" =
      some ⟨3⟩ ∧
    (openBrowser ⟨.ok ⟨9⟩, ⟨800, 600⟩⟩ "s" "http://u" (some (.error "ENOENT"))
        { emptyState with browsers := updMap emptyState.browsers "s" (some ⟨3⟩) }).state.pages "s" =
      some (Browser.firstPage ⟨3⟩) ∧
    (openBrowser ⟨.ok ⟨9⟩, ⟨800, 600⟩⟩ "s" "http://u" (some (.error "ENOENT"))
        { emptyState with browsers := updMap emptyState.browsers "s" (some ⟨3⟩) }).state.screenSizes "s" =
      some ⟨800, 600⟩ :=
  openBrowser_tracked_browser ⟨.ok ⟨9⟩, ⟨800, 600⟩⟩ "s" "http://u" (some (.error "ENOENT"))
    _ ⟨3⟩ (by decide)

/-- Claim C5: a completed `closeBrowser(id)` on a session with a HAR
recorder stops the recorder, writes the configured outputs in order
(the raw serialized log to the `file` path, the template with its
placeholder substituted by the serialized log to the `html` path),
and removes the HAR entry: two files when both paths are configured,
one when exactly one is. -/
theorem closeBrowser_har_writes (hj tpl id : String) (st : ProviderState)
    (e : HarEntry) (p : Page) (b : Browser)
    (hh : st.har id = some e) (hp : st.pages id = some p) (hb : st.browsers id = some b) :
    (closeBrowser hj tpl id st).err = none ∧
    Event.harStop e.page ∈ (closeBrowser hj tpl id st).events ∧
    (closeBrowser hj tpl id st).state.har id = none ∧
    writeEvents (closeBrowser hj tpl id st).events =
      (match e.cfg.file with
       | some f => [Event.writeFile f hj]
       | none => []) ++
      (match e.cfg.html with
       | some h => [Event.writeFile h (replaceFirst tpl "{harLogData}" hj)]
       | none => []) ∧
    (e.cfg.file.isSome → e.cfg.html.isSome →
      (writeEvents (closeBrowser hj tpl id st).events).length = 2) ∧
    ((e.cfg.file.isSome ∧ e.cfg.html = none) ∨ (e.cfg.file = none ∧ e.cfg.html.isSome) →
      (writeEvents (closeBrowser hj tpl id st).events).length = 1) := by
  unfold closeBrowser
  cases hf : e.cfg.file <;> cases hhtml : e.cfg.html <;>
    simp [hh, hp, hb, hf, hhtml, updMap, writeEvents]

/-- Concrete state for the C5 witness: one session with a HAR recorder
configured for both output paths. -/
def stC5W : ProviderState :=
  { browsers := updMap (fun _ => none) "s" (some ⟨4⟩),
    pages := updMap (fun _ => none) "s" (some ⟨4⟩),
    har := updMap (fun _ => none) "s" (some ⟨⟨some "out.har", some "out.html"⟩, ⟨4⟩⟩),
    screenSizes := fun _ => none }

/-- Witness for C5 at a concrete session with both HAR output paths
configured. -/
theorem closeBrowser_har_writes_witness :
    (closeBrowser "LOG" "<h>{harLogData}</h>" "s" stC5W).err = none ∧
    Event.harStop ⟨4⟩ ∈ (closeBrowser "LOG" "<h>{harLogData}</h>" "s" stC5W).events ∧
    (closeBrowser "LOG" "<h>{harLogData}</h>" "s" stC5W).state.har "s" = none ∧
    writeEvents (closeBrowser "LOG" "<h>{harLogData}</h>" "s" stC5W).events =
      [Event.writeFile "out.har" "LOG"] ++
      [Event.writeFile "out.html" (replaceFirst "<h>{harLogData}</h>" "{harLogData}" "LOG")] ∧
    (writeEvents (closeBrowser "LOG" "<h>{harLogData}</h>" "s" stC5W).events).length = 2 := by
  have h := closeBrowser_har_writes "LOG" "<h>{harLogData}</h>" "s" stC5W
    ⟨⟨some "out.har", some "out.html"⟩, ⟨4⟩⟩ ⟨4⟩ ⟨4⟩ (by decide) (by decide) (by decide)
  exact ⟨h.1, h.2.1, h.2.2.1, h.2.2.2.1, h.2.2.2.2.1 rfl rfl⟩

/-- Helper lemma: the fresh-launch tail records exactly one launch
call, carrying the options it was given. -/
theorem openLaunchedBrowser_launchedOpts (env : Env) (id url : String)
    (lo : LaunchOptions) (am : Bool) (hc : Option HarConfig) (st : ProviderState)
    (ca : Option (Except String BrowserConfiguration)) :
    launchedOpts (openLaunchedBrowser env id url lo am hc st ca).events = [lo] := by
  unfold openLaunchedBrowser
  cases env.launchResult <;>
    cases hc <;> cases am <;> cases hlo : lo.headless <;>
      simp [launchedOpts, hlo]

/-- Helper lemma: with app mode set, the fresh-launch tail issues no
navigation call. -/
theorem openLaunchedBrowser_appMode_no_goto (env : Env) (id url : String)
    (lo : LaunchOptions) (hc : Option HarConfig) (st : ProviderState)
    (ca : Option (Except String BrowserConfiguration)) (p : Page) (u : String) :
    Event.goto p u ∉ (openLaunchedBrowser env id url lo true hc st ca).events := by
  unfold openLaunchedBrowser
  cases env.launchResult <;>
    cases hc <;> cases hlo : lo.headless <;>
      simp [hlo]

/-- Helper lemma: `disableInfoBarsOpts` never changes the `headless`
field. -/
theorem disableInfoBarsOpts_headless (lo : LaunchOptions) (d : Bool) :
    (disableInfoBarsOpts lo d).headless = lo.headless := by
  unfold disableInfoBarsOpts
  cases d <;> simp

/-- Helper lemma: `disableInfoBarsOpts` only appends to the `args`
list. -/
theorem disableInfoBarsOpts_args_mem (lo : LaunchOptions) (d : Bool) (s : String)
    (h : s ∈ lo.args) : s ∈ (disableInfoBarsOpts lo d).args := by
  unfold disableInfoBarsOpts
  cases d <;> simp [h]

/-- Claim C6: opening a not-yet-tracked session with `appMode = true`
issues no navigation call; instead the launch options carry
`--app=` plus the url in the args and have `headless` forced to
false. -/
theorem openBrowser_appMode_no_goto (env : Env) (id url : String)
    (bc : BrowserConfiguration) (c : LaunchConfig) (st : ProviderState)
    (hb : st.browsers id = none) (hc : bc.chromium = some c)
    (ha : bc.appMode = some true) :
    (∀ (p : Page) (u : String),
      Event.goto p u ∉ (openBrowser env id url (some (.ok bc)) st).events) ∧
    ∃ lo, launchedOpts (openBrowser env id url (some (.ok bc)) st).events = [lo] ∧
      lo.headless = false ∧ ("--app=" ++ url) ∈ lo.args := by
  have hopen : openBrowser env id url (some (.ok bc)) st =
      openLaunchedBrowser env id url
        (disableInfoBarsOpts
          (appModeOpts (combineLaunchOptions defaultLaunchOptions c) url true)
          (bc.disableInfoBars.getD false))
        true bc.har st
        (some (.ok (configModuleAfter bc c
          (disableInfoBarsOpts
            (appModeOpts (combineLaunchOptions defaultLaunchOptions c) url true)
            (bc.disableInfoBars.getD false))))) := by
    unfold openBrowser
    simp only [hb, hc, ha, Option.getD_some]
  constructor
  · intro p u
    rw [hopen]
    exact openLaunchedBrowser_appMode_no_goto _ _ _ _ _ _ _ _ _
  · refine ⟨disableInfoBarsOpts
        (appModeOpts (combineLaunchOptions defaultLaunchOptions c) url true)
        (bc.disableInfoBars.getD false), ?_, ?_, ?_⟩
    · rw [hopen]
      exact openLaunchedBrowser_launchedOpts _ _ _ _ _ _ _ _
    · rw [disableInfoBarsOpts_headless]
      unfold appModeOpts
      simp
    · apply disableInfoBarsOpts_args_mem
      unfold appModeOpts
      simp

/-- Concrete config for the C6 witness: app mode on, nothing else. -/
def cfgC6W : BrowserConfiguration :=
  { chromium := some { args := none, defaultViewport := none, headless := some true,
                       ignoreDefaultArgs := none, timeout := none, extra := [] },
    appMode := some true, disableInfoBars := none, har := none }

/-- Witness for C6 at a concrete environment and config. -/
theorem openBrowser_appMode_no_goto_witness :
    (∀ (p : Page) (u : String),
      Event.goto p u ∉ (openBrowser ⟨.ok ⟨2⟩, ⟨1, 1⟩⟩ "s" "http://app" (some (.ok cfgC6W))
        emptyState).events) ∧
    ∃ lo, launchedOpts (openBrowser ⟨.ok ⟨2⟩, ⟨1, 1⟩⟩ "s" "http://app" (some (.ok cfgC6W))
        emptyState).events = [lo] ∧
      lo.headless = false ∧ ("--app=" ++ "http://app") ∈ lo.args :=
  openBrowser_appMode_no_goto ⟨.ok ⟨2⟩, ⟨1, 1⟩⟩ "s" "http://app" cfgC6W _ emptyState
    rfl rfl rfl

/-- Claim C7: on a not-yet-tracked session, a config whose module
fails to load, or whose contents make the merge fail, aborts
`openBrowser` with the wrapping error message, launches nothing and
leaves the per-session maps untouched; an error from a call outside
the config block (here the launch) is propagated with its own
message, unwrapped. -/
theorem openBrowser_config_error (env : Env) (id url e : String) (st : ProviderState)
    (hb : st.browsers id = none) :
    openBrowser env id url (some (.error e)) st =
      { events := [], state := st, configModule := some (.error e),
        err := some (wrapConfigError e) } ∧
    (∀ bc : BrowserConfiguration, bc.chromium = none →
      openBrowser env id url (some (.ok bc)) st =
        { events := [], state := st, configModule := some (.ok bc),
          err := some (wrapConfigError chromiumMissingError) }) ∧
    (∀ le, env.launchResult = .error le →
      (openBrowser env id url none st).err = some le ∧
      (openBrowser env id url none st).state = st ∧
      (openBrowser env id url none st).events = [.launch defaultLaunchOptions] ∧
      ∀ (bc : BrowserConfiguration) (c : LaunchConfig), bc.chromium = some c →
        (openBrowser env id url (some (.ok bc)) st).err = some le) := by
  refine ⟨?_, ?_, ?_⟩
  · unfold openBrowser
    simp only [hb]
  · intro bc hbc
    unfold openBrowser
    simp only [hb, hbc]
  · intro le hle
    refine ⟨?_, ?_, ?_, ?_⟩
    · unfold openBrowser openLaunchedBrowser
      simp only [hb, hle]
    · unfold openBrowser openLaunchedBrowser
      simp only [hb, hle]
    · unfold openBrowser openLaunchedBrowser
      simp only [hb, hle]
    · intro bc c hbc
      unfold openBrowser openLaunchedBrowser
      simp only [hb, hbc, hle]

/-- Witness for C7 at the empty state and a failing launch
environment. -/
theorem openBrowser_config_error_witness :
    openBrowser ⟨.error "spawn failed", ⟨1, 1⟩⟩ "s" "http://u" (some (.error "ENOENT"))
        emptyState =
      { events := [], state := emptyState, configModule := some (.error "ENOENT"),
        err := some (wrapConfigError "ENOENT") } ∧
    openBrowser ⟨.error "spawn failed", ⟨1, 1⟩⟩ "s" "http://u"
        (some (.ok { chromium := none, appMode := none, disableInfoBars := none, har := none }))
        emptyState =
      { events := [], state := emptyState,
        configModule := some (.ok { chromium := none, appMode := none,
                                    disableInfoBars := none, har := none }),
        err := some (wrapConfigError chromiumMissingError) } ∧
    (openBrowser ⟨.error "spawn failed", ⟨1, 1⟩⟩ "s" "http://u" none emptyState).err =
      some "spawn failed" := by
  have h := openBrowser_config_error ⟨.error "spawn failed", ⟨1, 1⟩⟩ "s" "http://u"
    "ENOENT" emptyState rfl
  exact ⟨h.1, h.2.1 _ rfl, (h.2.2 "spawn failed" rfl).1⟩

/-- Concrete config module for the C2 counterexample: disableInfoBars
set, and the module supplies its own (initially empty)
ignoreDefaultArgs array. -/
def cfgC2 : BrowserConfiguration :=
  { chromium := some { args := none, defaultViewport := none, headless := none,
                       ignoreDefaultArgs := some [], timeout := none, extra := [] },
    appMode := none, disableInfoBars := some true, har := none }

/-- Environment for the C2 counterexample. -/
def envC2 : Env :=
  { launchResult := .ok ⟨7⟩, probedSize := ⟨1920, 1080⟩ }

/-- Counterexample to claim C2 as stated: two `openBrowser` calls for
different sessions sharing the same (require-cached) config module,
with `disableInfoBars = true` and a module-supplied
`ignoreDefaultArgs` array. The spread copies the module's array by
reference, so the push of the first call persists in the module, and
the second call's launch options carry `--enable-automation` twice,
not exactly once. -/
theorem openBrowser_enable_automation_accumulates :
    (launchedOpts (openBrowser envC2 "s2" "http://x"
        (openBrowser envC2 "s1" "http://x" (some (.ok cfgC2)) emptyState).configModule
        (openBrowser envC2 "s1" "http://x" (some (.ok cfgC2)) emptyState).state).events).map
      (fun lo => lo.ignoreDefaultArgs) = [["--enable-automation", "--enable-automation"]] ∧
    ¬ (["--enable-automation", "--enable-automation"].count "--enable-automation" = 1) := by
  decide

/-- Claim C2 (amended): with `disableInfoBars = true` on a fresh
session, `--no-default-browser-check` is appended to the launch args
exactly once per open call, and `--enable-automation` is appended
exactly once per open call to the ignoreDefaultArgs array in use;
when the config module supplies that array itself, the appended entry
is retained by the cached module, so open calls reusing the module
see the entries of earlier calls (the launch options of the n-th such
call contain the entry n times); with no module-supplied array the
launch options contain each entry exactly once. -/
theorem openBrowser_disableInfoBars_append_once (env : Env) (id url : String)
    (bc : BrowserConfiguration) (c : LaunchConfig) (l : List String)
    (st : ProviderState)
    (hb : st.browsers id = none) (hc : bc.chromium = some c)
    (hd : bc.disableInfoBars = some true) (ha : bc.appMode = none)
    (hargs : c.args = none) (hida : c.ignoreDefaultArgs = some l) :
    ∃ lo, launchedOpts (openBrowser env id url (some (.ok bc)) st).events = [lo] ∧
      lo.args = ["--disable-infobars", "--no-default-browser-check"] ∧
      lo.args.count "--no-default-browser-check" = 1 ∧
      lo.ignoreDefaultArgs = l ++ ["--enable-automation"] ∧
      lo.ignoreDefaultArgs.count "--enable-automation" =
        l.count "--enable-automation" + 1 ∧
      (openBrowser env id url (some (.ok bc)) st).configModule =
        some (.ok { bc with chromium := some { c with ignoreDefaultArgs := some (l ++ ["--enable-automation"]) } }) := by
  have hlo : disableInfoBarsOpts
      (appModeOpts (combineLaunchOptions defaultLaunchOptions c) url (bc.appMode.getD false))
      (bc.disableInfoBars.getD false) =
      { args := ["--disable-infobars", "--no-default-browser-check"],
        defaultViewport := c.defaultViewport.getD none,
        headless := c.headless.getD false,
        ignoreDefaultArgs := l ++ ["--enable-automation"],
        timeout := c.timeout.getD 30000,
        extra := c.extra ++ [] } := by
    rw [ha, hd]
    unfold appModeOpts disableInfoBarsOpts combineLaunchOptions defaultLaunchOptions
    rw [hargs, hida]
    simp
  have hopen : openBrowser env id url (some (.ok bc)) st =
      openLaunchedBrowser env id url
        (disableInfoBarsOpts
          (appModeOpts (combineLaunchOptions defaultLaunchOptions c) url (bc.appMode.getD false))
          (bc.disableInfoBars.getD false))
        (bc.appMode.getD false) bc.har st
        (some (.ok (configModuleAfter bc c
          (disableInfoBarsOpts
            (appModeOpts (combineLaunchOptions defaultLaunchOptions c) url (bc.appMode.getD false))
            (bc.disableInfoBars.getD false))))) := by
    unfold openBrowser
    simp only [hb, hc]
  refine ⟨disableInfoBarsOpts
      (appModeOpts (combineLaunchOptions defaultLaunchOptions c) url (bc.appMode.getD false))
      (bc.disableInfoBars.getD false), ?_, ?_, ?_, ?_, ?_, ?_⟩
  · rw [hopen]
    exact openLaunchedBrowser_launchedOpts _ _ _ _ _ _ _ _
  · rw [hlo]
  · rw [hlo]
    norm_num [List.count_cons]
    decide
  · rw [hlo]
  · rw [hlo]
    simp [List.count_append]
  · rw [hopen]
    have hca : configModuleAfter bc c
        (disableInfoBarsOpts
          (appModeOpts (combineLaunchOptions defaultLaunchOptions c) url (bc.appMode.getD false))
          (bc.disableInfoBars.getD false)) =
        { bc with chromium := some { c with ignoreDefaultArgs := some (l ++ ["--enable-automation"]) } } := by
      rw [hlo]
      unfold configModuleAfter
      rw [hd, hida]
      simp
    rw [hca]
    unfold openLaunchedBrowser
    cases hres : env.launchResult <;> simp

/-- Witness for the amended C2: one open call on the concrete config
module appends each entry exactly once and stores the appended array
back into the module. -/
theorem openBrowser_disableInfoBars_append_once_witness :
    ∃ lo, launchedOpts (openBrowser envC2 "s1" "http://x" (some (.ok cfgC2))
        emptyState).events = [lo] ∧
      lo.args = ["--disable-infobars", "--no-default-browser-check"] ∧
      lo.args.count "--no-default-browser-check" = 1 ∧
      lo.ignoreDefaultArgs = [] ++ ["--enable-automation"] ∧
      lo.ignoreDefaultArgs.count "--enable-automation" =
        List.count "--enable-automation" [] + 1 ∧
      (openBrowser envC2 "s1" "http://x" (some (.ok cfgC2)) emptyState).configModule =
        some (.ok { cfgC2 with chromium := some { args := none, defaultViewport := none, headless := none, ignoreDefaultArgs := some ([] ++ ["--enable-automation"]), timeout := none, extra := [] } }) :=
  openBrowser_disableInfoBars_append_once envC2 "s1" "http://x" cfgC2
    { args := none, defaultViewport := none, headless := none,
      ignoreDefaultArgs := some [], timeout := none, extra := [] }
    [] emptyState rfl rfl rfl rfl rfl rfl

end Provider
